import Mathlib

/-!
Shallow embedding of the Copy-Pasta bot (src/bot.py): the per-user key-value
store, the add handler, the backup scheduler, the cooldown tracker, the
blacklist handlers, the command dispatcher and the message router, together
with theorems settling the frozen claims about them.

Python dicts are embedded as association lists with insert-or-replace update
(`dset`), which matches dict semantics on the lists this code builds (every
key occurs at most once and `key in d` agrees with lookup).  Timestamps are
embedded as integers; `datetime` arithmetic only ever compares differences
against an interval.  User-facing strings coming from the missing `constants`
module are opaque named constants.
-/

/-- The five command response statuses of `CommandResponse` in src/bot.py. -/
inductive CommandResponse where
  | SUCCESS
  | FAILURE
  | NO_PERMISSION
  | INVALID_ARGS
  | COOLDOWN
deriving DecidableEq, Repr

/-- A command result payload: either text or a binary file attachment
(`Union[str, discord.File]` in src/bot.py). -/
inductive Payload where
  | text (s : String)
  | file
deriving DecidableEq, Repr

/-- `CommandResult` of src/bot.py: a status plus an optional message. -/
structure CommandResult where
  status : CommandResponse
  message : Option Payload := none
deriving DecidableEq, Repr

/-- Python truthiness of an optional message: `None` and the empty string are
falsy, a file object is truthy. -/
def truthy : Option Payload → Bool
  | none => false
  | some (.text s) => !(s == "")
  | some .file => true

/-- Association-list lookup, embedding Python `d.get(k)` / `d[k]`. -/
def dget {α β : Type} [DecidableEq α] : List (α × β) → α → Option β
  | [], _ => none
  | (a, b) :: rest, k => if a = k then some b else dget rest k

/-- Association-list insert-or-replace, embedding Python `d[k] = v`. -/
def dset {α β : Type} [DecidableEq α] : List (α × β) → α → β → List (α × β)
  | [], k, v => [(k, v)]
  | (a, b) :: rest, k, v =>
      if a = k then (k, v) :: rest else (a, b) :: dset rest k v

/-- Python `k in d` membership test on a dict. -/
def dmem {α β : Type} [DecidableEq α] (l : List (α × β)) (k : α) : Bool :=
  (dget l k).isSome

/-- Python `list.remove(x)`: drop the first occurrence of `x`. -/
def removeFirst : List Int → Int → List Int
  | [], _ => []
  | x :: rest, v => if x = v then rest else x :: removeFirst rest v

/-- A user's record: string keys mapped to stored text values. -/
abbrev UserDb := List (String × String)

/-- The whole store: numeric user ids mapped to user records
(the `SqliteDict` held by `DatabaseManager`). -/
abbrev Db := List (Int × UserDb)

/-- Modelled from the spec: `constants.SUCCESSFUL`, an opaque user-facing
string of the missing `constants` module. -/
def SUCCESSFUL : String := "Done."

/-- Modelled from the spec: `constants.KEY_EXISTS_ADD`, an opaque user-facing
string of the missing `constants` module. -/
def KEY_EXISTS_ADD : String := "That key already exists."

/-- Modelled from the spec: `constants.EMPTY_MESSAGE`, an opaque user-facing
string of the missing `constants` module. -/
def EMPTY_MESSAGE : String := "The replied-to message is empty."

/-- Modelled from the spec: `constants.WRONG_ARGS_ADD`, an opaque user-facing
string of the missing `constants` module. -/
def WRONG_ARGS_ADD : String := "Wrong arguments for add."

/-- `DatabaseManager.store_text` (src/bot.py:133-144): reject when the key is
present and `overwrite` is false, otherwise insert or replace.  Returns the
result together with the updated store. -/
def store_text (db : Db) (user : Int) (key value : String) (overwrite : Bool) :
    CommandResult × Db :=
  let user_db := (dget db user).getD []
  if dmem user_db key && !overwrite then
    (⟨CommandResponse.FAILURE, some (.text KEY_EXISTS_ADD)⟩, db)
  else
    (⟨CommandResponse.SUCCESS, some (.text SUCCESSFUL)⟩,
      dset db user (dset user_db key value))

/-- `DatabaseManager.retrieve_text` (src/bot.py:146-152):
`self.db.get(user, {}).get(key)`. -/
def retrieve_text (db : Db) (user : Int) (key : String) : Option String :=
  dget ((dget db user).getD []) key

/-- Python `str.strip()`: drop leading and trailing whitespace.  Embedded
over the string's character list so that the kernel can evaluate it. -/
def pyStrip (s : String) : String :=
  ⟨((s.data.dropWhile Char.isWhitespace).reverse.dropWhile
      Char.isWhitespace).reverse⟩

/-- Python `s.startswith(p)`, embedded over character lists. -/
def pyStartsWith (s p : String) : Bool :=
  p.data.isPrefixOf s.data

/-- Python `s.endswith(p)`, embedded over character lists. -/
def pyEndsWith (s p : String) : Bool :=
  p.data.reverse.isPrefixOf s.data.reverse

/-- Python `s[n:]`, embedded over character lists. -/
def pyDrop (s : String) (n : Nat) : String :=
  ⟨s.data.drop n⟩

/-- Python `s[:-n]` for positive `n`, embedded over character lists. -/
def pyDropRight (s : String) (n : Nat) : String :=
  ⟨s.data.take (s.data.length - n)⟩

/-- Helper for `pySplitWs`: walk the characters accumulating the current
token (in reverse). -/
def splitWsAux : List Char → List Char → List String
  | [], acc => if acc.isEmpty then [] else [⟨acc.reverse⟩]
  | c :: rest, acc =>
      if c.isWhitespace then
        if acc.isEmpty then splitWsAux rest []
        else ⟨acc.reverse⟩ :: splitWsAux rest []
      else splitWsAux rest (c :: acc)

/-- Python `s.split()` with no separator: split on whitespace runs, dropping
empty tokens. -/
def pySplitWs (s : String) : List String :=
  splitWsAux s.data []

/-- Helper for `pyInt`: decimal digits to a number, `none` on a non-digit. -/
def digitsVal : List Char → Nat → Option Nat
  | [], acc => some acc
  | c :: rest, acc =>
      if c.isDigit then digitsVal rest (acc * 10 + (c.toNat - 48)) else none

/-- Python `int(s)` as used on mention bodies: an optional sign followed by
at least one decimal digit; anything else raises `ValueError`, embedded as
`none`. -/
def pyInt (s : String) : Option Int :=
  match s.data with
  | [] => none
  | c :: rest =>
      if c = '-' then
        match rest with
        | [] => none
        | _ => (digitsVal rest 0).map (fun n => -(n : Int))
      else if c = '+' then
        match rest with
        | [] => none
        | _ => (digitsVal rest 0).map (fun n => (n : Int))
      else (digitsVal (c :: rest) 0).map (fun n => (n : Int))

/-- The parts of a replied-to message that the add handler reads: its text
content, its attachment URLs and its sticker (name, URL) pairs. -/
structure Message where
  content : String
  attachments : List String
  stickers : List (String × String)
deriving DecidableEq, Repr

/-- `CommandHandler._get_attachments_text` (src/bot.py:273-280): one
`[Attachment i](url) ` chunk per attachment, then one `[name](url) ` chunk
per sticker. -/
def get_attachments_text (m : Message) : String :=
  String.join (m.attachments.enum.map (fun p =>
      "[Attachment " ++ toString p.1 ++ "](" ++ p.2 ++ ") "))
    ++ String.join (m.stickers.map (fun s =>
      "[" ++ s.1 ++ "](" ++ s.2 ++ ") "))

/-- `CommandHandler._handle_add` (src/bot.py:250-271): validates the argument
count, builds the value either from the replied-to message (two-token form)
or from the remaining tokens, and stores it via `store_text`. -/
def handle_add (db : Db) (userId : Int) (args : List String)
    (reply : Option Message) (overwrite : Bool) : CommandResult × Db :=
  if args.length = 1 ∨ (args.length = 2 ∧ reply = none) then
    (⟨CommandResponse.INVALID_ARGS, some (.text WRONG_ARGS_ADD)⟩, db)
  else if args.length = 2 then
    match reply with
    | none => (⟨CommandResponse.INVALID_ARGS, some (.text WRONG_ARGS_ADD)⟩, db)
    | some r =>
        let original_message := pyStrip r.content ++ get_attachments_text r
        if original_message = "" then
          (⟨CommandResponse.FAILURE, some (.text EMPTY_MESSAGE)⟩, db)
        else
          store_text db userId (args.getD 1 "") original_message overwrite
  else
    store_text db userId (args.getD 1 "")
      (String.intercalate " " (args.drop 2)) overwrite

/-- A directory of snapshot files: backup path ↦ copied (user, record) pairs. -/
abbrev FileSystem := List (String × Db)

/-- Environment outcome of one snapshot write attempt: the copy loop either
completes, or an exception is raised after `j` entries were written, or an
exception is raised before the backup file is even created. -/
inductive WriteOutcome where
  | ok
  | failAfter (j : Nat)
  | failBeforeCreate
deriving DecidableEq, Repr

/-- `DatabaseManager.create_backup` (src/bot.py:112-131): copy the store into
a fresh backup file; on an exception, delete the backup file when it exists
and report failure.  The `WriteOutcome` parameter stands for the environment
(whether the copy raises, and how much of the file was written by then). -/
def create_backup (fs : FileSystem) (db : Db) (backup_path : String)
    (w : WriteOutcome) : Bool × FileSystem :=
  match w with
  | .ok => (true, dset fs backup_path db)
  | .failAfter j =>
      let fsPart := dset fs backup_path (db.take j)
      (false, if dmem fsPart backup_path then
          fsPart.filter (fun p => !(p.1 == backup_path))
        else fsPart)
  | .failBeforeCreate =>
      (false, if dmem fs backup_path then
          fs.filter (fun p => !(p.1 == backup_path))
        else fs)

/-- The `DatabaseManager` backup-scheduling state set up by
`_setup_backup_schedule` (src/bot.py:100-103); the interval is passed
explicitly. -/
structure BackupState where
  last_backup : Int
deriving DecidableEq, Repr

/-- `DatabaseManager._periodic_backup` (src/bot.py:105-110): when the interval
has elapsed, call `create_backup` and set `last_backup` to the current time.
The boolean result of `create_backup` is ignored, exactly as in the source. -/
def periodic_backup (st : BackupState) (fs : FileSystem) (db : Db)
    (backup_path : String) (now interval : Int) (w : WriteOutcome) :
    BackupState × FileSystem :=
  if interval ≤ now - st.last_backup then
    (⟨now⟩, (create_backup fs db backup_path w).2)
  else (st, fs)

/-- Cooldown table: command name ↦ (user id ↦ last accepted timestamp),
the `command_cooldowns` field of `CommandHandler`. -/
abbrev Cooldowns := List (String × List (Int × Int))

/-- First half of `CommandHandler._check_cooldown` (src/bot.py:236-248)
after the ensure-entry step, with the current time and
`constants.COMMAND_COOLDOWN` passed explicitly. -/
def check_cooldown_go (cd1 : Cooldowns) (user_id : Int) (command : String)
    (now interval : Int) : Bool × Cooldowns :=
  match dget ((dget cd1 command).getD []) user_id with
  | some last_used =>
      if now - last_used < interval then (false, cd1)
      else
        (true, dset cd1 command (dset ((dget cd1 command).getD []) user_id now))
  | none =>
      (true, dset cd1 command (dset ((dget cd1 command).getD []) user_id now))

/-- Second half of `_check_cooldown`: look up the user's last accepted
timestamp in the (now present) per-command map, reject inside the interval,
record and accept otherwise. -/
def check_cooldown (cd : Cooldowns) (user_id : Int) (command : String)
    (now interval : Int) : Bool × Cooldowns :=
  check_cooldown_go (if dmem cd command then cd else dset cd command [])
    user_id command now interval

/-- The names registered in `CommandHandler.setup_commands`
(src/bot.py:203-234). -/
def known_commands : List String :=
  ["add", "add_o", "saved", "delete", "delete_me", "rename", "rename_o",
   "help", "steal", "blacklist_add", "blacklist_remove", "backup",
   "clap", "zalgo", "forbesify", "copypasta", "owo", "stretch", "mock",
   "deepfry"]

/-- The cooldown rejection text built in `handle_command`
(src/bot.py:504-507). -/
def cooldown_message (command : String) : String :=
  "Command " ++ command ++ " is on cooldown. Please wait."

/-- The argument tokens `handle_command` derives from the raw command text
(src/bot.py:493-496): strip one leading trigger marker, then split on
whitespace. -/
def parsed_args (cmdText : String) : List String :=
  pySplitWs (if pyStartsWith cmdText ";;" then pyDrop cmdText 2 else cmdText)

/-- `CommandHandler.handle_command` (src/bot.py:491-515), with the handler
table abstracted by an oracle mapping the command name and argument tokens
to the handler body's result: the registered handlers are one instance, and
the claims proved over every oracle in particular hold for them.  Returns
the optional result together with the updated cooldown table. -/
def handle_command (oracle : String → List String → CommandResult)
    (cd : Cooldowns) (user_id : Int) (cmdText : String) (now interval : Int) :
    Option CommandResult × Cooldowns :=
  match parsed_args cmdText with
  | [] => (none, cd)
  | command :: rest =>
      if command ∈ known_commands then
        let res := check_cooldown cd user_id command now interval
        if res.1 then (some (oracle command (command :: rest)), res.2)
        else
          (some ⟨CommandResponse.COOLDOWN,
            some (.text (cooldown_message command))⟩, res.2)
      else (some ⟨CommandResponse.FAILURE, some (.text "Unknown command.")⟩, cd)

/-- `Permission.requires_admin` wrapped around
`CommandHandler._handle_blacklist_add` (src/bot.py:427-451): admin gate,
mention validation, admin and duplicate protection, then append to the
blacklist.  The admin set (`do_not_push.ADMINS`, not under src/) is passed
explicitly. -/
def handle_blacklist_add (admins blacklist : List Int) (caller : Int)
    (args : List String) : CommandResult × List Int :=
  if caller ∈ admins then
    if args.length == 2 && pyStartsWith (args.getD 1 "") "<@"
        && pyEndsWith (args.getD 1 "") ">" then
      match pyInt (pyDropRight (pyDrop (args.getD 1 "") 2) 1) with
      | none =>
          (⟨CommandResponse.FAILURE,
            some (.text "Failed to add user to blacklist.")⟩, blacklist)
      | some uid =>
          if uid ∈ admins then
            (⟨CommandResponse.FAILURE,
              some (.text "You cannot blacklist another admin.")⟩, blacklist)
          else if uid ∈ blacklist then
            (⟨CommandResponse.FAILURE,
              some (.text "User is already blacklisted.")⟩, blacklist)
          else
            (⟨CommandResponse.SUCCESS,
              some (.text ("User <@" ++ toString uid ++
                "> has been blacklisted."))⟩, blacklist ++ [uid])
    else
      (⟨CommandResponse.INVALID_ARGS, some (.text "Invalid user mention.")⟩,
        blacklist)
  else
    (⟨CommandResponse.NO_PERMISSION,
      some (.text "You don't have permission to use this command.")⟩,
      blacklist)

/-- `Permission.requires_admin` wrapped around
`CommandHandler._handle_blacklist_remove` (src/bot.py:453-472). -/
def handle_blacklist_remove (admins blacklist : List Int) (caller : Int)
    (args : List String) : CommandResult × List Int :=
  if caller ∈ admins then
    if args.length == 2 && pyStartsWith (args.getD 1 "") "<@"
        && pyEndsWith (args.getD 1 "") ">" then
      match pyInt (pyDropRight (pyDrop (args.getD 1 "") 2) 1) with
      | none =>
          (⟨CommandResponse.FAILURE,
            some (.text "Failed to remove user from blacklist.")⟩, blacklist)
      | some uid =>
          if uid ∈ blacklist then
            (⟨CommandResponse.SUCCESS,
              some (.text ("User <@" ++ toString uid ++
                "> has been removed from the blacklist."))⟩,
              removeFirst blacklist uid)
          else
            (⟨CommandResponse.FAILURE,
              some (.text "User is not blacklisted.")⟩, blacklist)
    else
      (⟨CommandResponse.INVALID_ARGS, some (.text "Invalid user mention.")⟩,
        blacklist)
  else
    (⟨CommandResponse.NO_PERMISSION,
      some (.text "You don't have permission to use this command.")⟩,
      blacklist)

/-- The fields of an inbound message that `on_message` reads. -/
structure InboundMessage where
  authorId : Int
  authorIsSelf : Bool
  authorIsBot : Bool
  content : String
deriving DecidableEq, Repr

/-- One outbound reply effect: a reply to the inbound message itself or to
the message it references. -/
inductive Outbound where
  | replyToMessage (body : Payload)
  | replyToReferenced (body : Payload)
deriving DecidableEq, Repr

/-- The bot state visible to the message router: the store, the cooldown
table and the mutable blacklist. -/
structure BotState where
  db : Db
  cooldowns : Cooldowns
  blacklist : List Int
deriving DecidableEq, Repr

/-- The fixed reply sent to blacklisted authors (src/bot.py:543). -/
def BLACKLISTED_REPLY : String := "You are blacklisted from using this bot."

/-- `on_message` (src/bot.py:536-546), with `process_message` abstracted as
the continuation `proc`: drop the bot's own and other bots' messages, answer
blacklisted authors whose stripped text starts with the trigger marker and
drop everything else from them, and hand all remaining messages on. -/
def on_message (proc : InboundMessage → BotState → List Outbound × BotState)
    (m : InboundMessage) (st : BotState) : List Outbound × BotState :=
  if m.authorIsSelf || m.authorIsBot then ([], st)
  else if m.authorId ∈ st.blacklist then
    (if pyStartsWith (pyStrip m.content) ";;" then
        [Outbound.replyToMessage (.text BLACKLISTED_REPLY)]
      else [], st)
  else proc m st

/-- `DiscordBot.send_response` (src/bot.py:575-585): a truthy `SUCCESS`
payload is sent to the referenced message when the inbound message is a
reply (to the message itself otherwise); `FAILURE`, `NO_PERMISSION` and
`INVALID_ARGS` reply to the message with the payload or a default error
text; every other result sends nothing. -/
def send_response (hasReference : Bool) (r : CommandResult) : List Outbound :=
  if r.status = CommandResponse.SUCCESS ∧ truthy r.message = true then
    match r.message with
    | some p =>
        [if hasReference then Outbound.replyToReferenced p
         else Outbound.replyToMessage p]
    | none => []
  else if r.status = CommandResponse.FAILURE
      ∨ r.status = CommandResponse.NO_PERMISSION
      ∨ r.status = CommandResponse.INVALID_ARGS then
    [Outbound.replyToMessage (match r.message with
      | some p => if truthy (some p) then p else .text "An error occurred."
      | none => .text "An error occurred.")]
  else []

/-- A sample handler oracle (constantly successful) used to instantiate the
dispatcher theorems on concrete inputs. -/
def oracleSuccess : String → List String → CommandResult :=
  fun _ _ => ⟨CommandResponse.SUCCESS, none⟩

/-- A second sample handler oracle with a different result, to exhibit
independence of the cooldown table from the handler body. -/
def oracleFailure : String → List String → CommandResult :=
  fun _ _ => ⟨CommandResponse.FAILURE, none⟩

/-- A sample `process_message` continuation that does nothing. -/
def procNothing : InboundMessage → BotState → List Outbound × BotState :=
  fun _ st => ([], st)

/-- A second sample continuation that replies and clears the state, to
exhibit that the router never reaches `process_message`. -/
def procReply : InboundMessage → BotState → List Outbound × BotState :=
  fun _ _ => ([Outbound.replyToMessage (.text "ran")], ⟨[], [], []⟩)

/-! ## Lemmas and claim theorems -/

theorem dget_filter_out {α β : Type} [DecidableEq α] [BEq α] [LawfulBEq α]
    (l : List (α × β)) (k : α) :
    dget (l.filter (fun p => !(p.1 == k))) k = none := by
  induction l with
  | nil => simp [dget]
  | cons hd tl ih =>
      obtain ⟨a, b⟩ := hd
      by_cases hak : a = k
      · simp [List.filter, hak, ih]
      · simp only [List.filter, beq_eq_false_iff_ne, ne_eq]
        have : (!(a == k)) = true := by simp [hak]
        simp [this, dget, hak, ih]

theorem dget_dset_self {α β : Type} [DecidableEq α] (l : List (α × β)) (k : α)
    (v : β) : dget (dset l k v) k = some v := by
  induction l with
  | nil => simp [dset, dget]
  | cons hd tl ih =>
      obtain ⟨a, b⟩ := hd
      by_cases hak : a = k
      · simp [dset, hak, dget]
      · simp [dset, hak, dget, ih]

theorem dget_dset_ne {α β : Type} [DecidableEq α] (l : List (α × β)) (k k' : α)
    (v : β) (h : k ≠ k') : dget (dset l k v) k' = dget l k' := by
  induction l with
  | nil => simp [dset, dget, h]
  | cons hd tl ih =>
      obtain ⟨a, b⟩ := hd
      by_cases hak : a = k
      · subst hak
        simp [dset, dget, h]
      · simp only [dset, if_neg hak, dget]
        by_cases hak' : a = k'
        · simp [hak']
        · simp [hak', ih]

/-- C1: if key `k` is already present in user `u`'s record, `store_text` with
`overwrite = false` returns `FAILURE` with the key-exists message and leaves
the stored value unchanged, while `store_text` with `overwrite = true`
replaces the value, so a subsequent `retrieve_text` returns the new value. -/
theorem store_text_overwrite_semantics (db : Db) (u : Int) (k v v2 : String)
    (hpresent : retrieve_text db u k = some v) :
    ((store_text db u k v2 false).1 =
        ⟨CommandResponse.FAILURE, some (.text KEY_EXISTS_ADD)⟩
      ∧ retrieve_text (store_text db u k v2 false).2 u k = some v)
    ∧ retrieve_text (store_text db u k v2 true).2 u k = some v2 := by
  have hmem : dmem ((dget db u).getD []) k = true := by
    simp only [retrieve_text] at hpresent
    simp [dmem, hpresent]
  refine ⟨⟨?_, ?_⟩, ?_⟩
  · simp [store_text, hmem]
  · simp only [store_text, hmem, Bool.not_false, Bool.and_true, if_pos]
    exact hpresent
  · simp [store_text, retrieve_text, dget_dset_self]

theorem store_text_overwrite_semantics_witness :
    (((store_text [(1, [("k", "v")])] 1 "k" "w" false).1 =
        ⟨CommandResponse.FAILURE, some (.text KEY_EXISTS_ADD)⟩
      ∧ retrieve_text (store_text [(1, [("k", "v")])] 1 "k" "w" false).2 1 "k" =
          some "v")
    ∧ retrieve_text (store_text [(1, [("k", "v")])] 1 "k" "w" true).2 1 "k" =
        some "w") :=
  store_text_overwrite_semantics [(1, [("k", "v")])] 1 "k" "v" "w" (by decide)

/-- C2 counterexample: at the store level there is no emptiness check —
`store_text` on the empty value returns `SUCCESS` and writes the record,
instead of rejecting with an empty-value failure. -/
theorem store_text_accepts_empty_value_cex :
    (store_text [] 1 "k" "" false).1.status = CommandResponse.SUCCESS
    ∧ retrieve_text (store_text [] 1 "k" "" false).2 1 "k" = some "" := by
  decide

/-- C2 (amended): the emptiness rejection lives only in the add handler's
reply path: `_handle_add` on a replied-to message whose content trims to
empty and that carries no attachments or stickers returns `FAILURE` with
`EMPTY_MESSAGE` and leaves the store unchanged; `store_text` itself performs
no emptiness check — on a fresh key it stores even the empty value and
returns `SUCCESS`. -/
theorem handle_add_empty_value_semantics (db : Db) (u : Int) (k : String)
    (r : Message) (ow : Bool) (hc : pyStrip r.content = "")
    (ha : r.attachments = []) (hs : r.stickers = []) :
    handle_add db u ["add", k] (some r) ow =
      (⟨CommandResponse.FAILURE, some (.text EMPTY_MESSAGE)⟩, db)
    ∧ ∀ (db2 : Db) (u2 : Int) (k2 : String) (ow2 : Bool),
        retrieve_text db2 u2 k2 = none →
        (store_text db2 u2 k2 "" ow2).1.status = CommandResponse.SUCCESS
        ∧ retrieve_text (store_text db2 u2 k2 "" ow2).2 u2 k2 = some "" := by
  constructor
  · simp [handle_add, hc, get_attachments_text, ha, hs, String.join]
  · intro db2 u2 k2 ow2 hnone
    have hmem : dmem ((dget db2 u2).getD []) k2 = false := by
      simp only [retrieve_text] at hnone
      simp [dmem, hnone]
    constructor
    · simp [store_text, hmem]
    · simp [store_text, hmem, retrieve_text, dget_dset_self]

theorem handle_add_empty_value_semantics_witness :
    (handle_add [] 1 ["add", "k"] (some ⟨" ", [], []⟩) false =
      (⟨CommandResponse.FAILURE, some (.text EMPTY_MESSAGE)⟩, [])
    ∧ ((store_text [] 2 "k2" "" false).1.status = CommandResponse.SUCCESS
      ∧ retrieve_text (store_text [] 2 "k2" "" false).2 2 "k2" = some "")) :=
  ⟨(handle_add_empty_value_semantics [] 1 "k" ⟨" ", [], []⟩ false (by decide)
      rfl rfl).1,
   (handle_add_empty_value_semantics [] 1 "k" ⟨" ", [], []⟩ false (by decide)
      rfl rfl).2 [] 2 "k2" false (by decide)⟩

/-- C3 counterexample: when the interval has elapsed and the snapshot write
fails, `_periodic_backup` still advances `last_backup` to the current time
(the boolean result of `create_backup` is ignored), so the backup is not
retried on the next interval check. -/
theorem periodic_backup_failure_cex :
    (create_backup [] [(1, [("k", "v")])] "b" (.failAfter 0)).1 = false
    ∧ (periodic_backup ⟨0⟩ [] [(1, [("k", "v")])] "b" 100 50
        (.failAfter 0)).1.last_backup = 100 := by
  decide

/-- C3 (amended): whenever `_periodic_backup` triggers a snapshot,
`last_backup` is set to the current time regardless of whether the snapshot
write succeeds, so a failed periodic backup is retried only after another
full interval. -/
theorem periodic_backup_always_updates_time (st : BackupState)
    (fs : FileSystem) (db : Db) (backup_path : String) (now interval : Int)
    (w : WriteOutcome) (h : interval ≤ now - st.last_backup) :
    (periodic_backup st fs db backup_path now interval w).1.last_backup = now
    ∧ (periodic_backup st fs db backup_path now interval w).2 =
        (create_backup fs db backup_path w).2 := by
  simp [periodic_backup, h]

theorem periodic_backup_always_updates_time_witness :
    ((periodic_backup ⟨0⟩ [] [(1, [("k", "v")])] "b" 100 50
        (.failAfter 0)).1.last_backup = 100
    ∧ (periodic_backup ⟨0⟩ [] [(1, [("k", "v")])] "b" 100 50
        (.failAfter 0)).2 =
      (create_backup [] [(1, [("k", "v")])] "b" (.failAfter 0)).2) :=
  periodic_backup_always_updates_time ⟨0⟩ [] [(1, [("k", "v")])] "b" 100 50
    (.failAfter 0) (by decide)

/-- C8: a failed snapshot write makes `create_backup` return `false` and
leaves no artifact at the backup path — any partially written backup file is
deleted before the failure is returned. -/
theorem create_backup_failure_no_artifact (fs : FileSystem) (db : Db)
    (backup_path : String) (w : WriteOutcome) (hw : w ≠ WriteOutcome.ok) :
    (create_backup fs db backup_path w).1 = false
    ∧ dget (create_backup fs db backup_path w).2 backup_path = none := by
  cases w with
  | ok => exact absurd rfl hw
  | failAfter j =>
      refine ⟨rfl, ?_⟩
      have hm : dmem (dset fs backup_path (db.take j)) backup_path = true := by
        simp [dmem, dget_dset_self]
      simp only [create_backup]
      simp [hm, dget_filter_out]
  | failBeforeCreate =>
      refine ⟨rfl, ?_⟩
      simp only [create_backup]
      cases hdg : dget fs backup_path with
      | none => simp [dmem, hdg]
      | some v =>
          have hm : dmem fs backup_path = true := by simp [dmem, hdg]
          simp [hm, dget_filter_out]

theorem create_backup_failure_no_artifact_witness :
    ((create_backup [("b", [])] [(1, [("k", "v")])] "b" (.failAfter 1)).1 =
        false
    ∧ dget (create_backup [("b", [])] [(1, [("k", "v")])] "b"
        (.failAfter 1)).2 "b" = none) :=
  create_backup_failure_no_artifact [("b", [])] [(1, [("k", "v")])] "b"
    (.failAfter 1) (by decide)

theorem check_cooldown_go_records (cd1 : Cooldowns) (u : Int) (c : String)
    (now interval : Int)
    (h : (check_cooldown_go cd1 u c now interval).1 = true) :
    dget ((dget (check_cooldown_go cd1 u c now interval).2 c).getD []) u =
      some now := by
  unfold check_cooldown_go at h ⊢
  split at h
  · rename_i t heq
    split at h
    · simp at h
    · rename_i hlt
      rw [if_neg hlt]
      simp [dget_dset_self]
  · rename_i heq
    simp [dget_dset_self]

theorem check_cooldown_pass_records (cd : Cooldowns) (u : Int) (c : String)
    (now interval : Int)
    (h : (check_cooldown cd u c now interval).1 = true) :
    dget ((dget (check_cooldown cd u c now interval).2 c).getD []) u =
      some now := by
  unfold check_cooldown at h ⊢
  exact check_cooldown_go_records _ u c now interval h

theorem check_cooldown_entry (cd : Cooldowns) (u : Int) (c : String)
    (t now interval : Int)
    (hentry : dget ((dget cd c).getD []) u = some t) :
    check_cooldown cd u c now interval =
      if now - t < interval then (false, cd)
      else (true, dset cd c (dset ((dget cd c).getD []) u now)) := by
  have hsome : dmem cd c = true := by
    cases hdg : dget cd c with
    | none => rw [hdg] at hentry; simp [dget] at hentry
    | some m => simp [dmem, hdg]
  unfold check_cooldown check_cooldown_go
  simp only [hsome, if_true, hentry]

theorem handle_command_pass (oracle : String → List String → CommandResult)
    (cd : Cooldowns) (u : Int) (cmdText : String) (now interval : Int)
    (command : String) (rest : List String)
    (hargs : parsed_args cmdText = command :: rest)
    (hknown : command ∈ known_commands)
    (hgate : (check_cooldown cd u command now interval).1 = true) :
    handle_command oracle cd u cmdText now interval =
      (some (oracle command (command :: rest)),
        (check_cooldown cd u command now interval).2) := by
  unfold handle_command
  rw [hargs]
  simp [hknown, hgate]

theorem handle_command_reject (oracle : String → List String → CommandResult)
    (cd : Cooldowns) (u : Int) (cmdText : String) (now interval : Int)
    (command : String) (rest : List String)
    (hargs : parsed_args cmdText = command :: rest)
    (hknown : command ∈ known_commands)
    (hgate : (check_cooldown cd u command now interval).1 = false) :
    handle_command oracle cd u cmdText now interval =
      (some ⟨CommandResponse.COOLDOWN,
        some (.text (cooldown_message command))⟩,
        (check_cooldown cd u command now interval).2) := by
  unfold handle_command
  rw [hargs]
  simp [hknown, hgate]

/-- C4: for a known command whose cooldown gate passes, the dispatcher's
resulting cooldown table maps (command, user) to `now`, and that table is
the same whatever the handler body returns — the invocation counts against
the cooldown before and regardless of the handler's result. -/
theorem handle_command_records_cooldown_first
    (oracle oracle2 : String → List String → CommandResult) (cd : Cooldowns)
    (u : Int) (cmdText : String) (now interval : Int) (command : String)
    (rest : List String)
    (hargs : parsed_args cmdText = command :: rest)
    (hknown : command ∈ known_commands)
    (hgate : (check_cooldown cd u command now interval).1 = true) :
    dget ((dget (handle_command oracle cd u cmdText now interval).2
        command).getD []) u = some now
    ∧ (handle_command oracle cd u cmdText now interval).2 =
        (handle_command oracle2 cd u cmdText now interval).2 := by
  rw [handle_command_pass oracle cd u cmdText now interval command rest hargs
      hknown hgate,
    handle_command_pass oracle2 cd u cmdText now interval command rest hargs
      hknown hgate]
  exact ⟨check_cooldown_pass_records cd u command now interval hgate, rfl⟩

theorem handle_command_records_cooldown_first_witness :
    dget ((dget (handle_command oracleSuccess [] 7 ";;add k v" 10 5).2
        "add").getD []) 7 = some 10
    ∧ (handle_command oracleSuccess [] 7 ";;add k v" 10 5).2 =
        (handle_command oracleFailure [] 7 ";;add k v" 10 5).2 :=
  handle_command_records_cooldown_first oracleSuccess oracleFailure [] 7
    ";;add k v" 10 5 "add" ["k", "v"] (by decide) (by decide) (by decide)

/-- C5: after an accepted invocation of a known command at time `t`, a second
invocation within the cooldown interval yields a `COOLDOWN` result and
leaves the cooldown table unchanged, while an invocation once the interval
has elapsed passes the gate, records the new timestamp and returns the
handler's result. -/
theorem handle_command_cooldown_two_phase
    (oracle : String → List String → CommandResult) (cd : Cooldowns) (u : Int)
    (cmdText : String) (t t2 t3 interval : Int) (command : String)
    (rest : List String)
    (hargs : parsed_args cmdText = command :: rest)
    (hknown : command ∈ known_commands)
    (hgate : (check_cooldown cd u command t interval).1 = true)
    (h2 : t2 - t < interval) (h3 : interval ≤ t3 - t) :
    handle_command oracle (handle_command oracle cd u cmdText t interval).2 u
        cmdText t2 interval =
      (some ⟨CommandResponse.COOLDOWN,
          some (.text (cooldown_message command))⟩,
        (handle_command oracle cd u cmdText t interval).2)
    ∧ (handle_command oracle (handle_command oracle cd u cmdText t
          interval).2 u cmdText t3 interval).1 =
        some (oracle command (command :: rest))
    ∧ dget ((dget (handle_command oracle (handle_command oracle cd u cmdText
        t interval).2 u cmdText t3 interval).2 command).getD []) u =
        some t3 := by
  have hfst := handle_command_pass oracle cd u cmdText t interval command rest
    hargs hknown hgate
  set cd1 := (handle_command oracle cd u cmdText t interval).2 with hcd1
  have hsnd : cd1 = (check_cooldown cd u command t interval).2 := by
    rw [hcd1, hfst]
  have hentry : dget ((dget cd1 command).getD []) u = some t := by
    rw [hsnd]
    exact check_cooldown_pass_records cd u command t interval hgate
  have hcc2 : check_cooldown cd1 u command t2 interval = (false, cd1) := by
    rw [check_cooldown_entry cd1 u command t t2 interval hentry, if_pos h2]
  have hcc3 : check_cooldown cd1 u command t3 interval =
      (true, dset cd1 command (dset ((dget cd1 command).getD []) u t3)) := by
    rw [check_cooldown_entry cd1 u command t t3 interval hentry,
      if_neg (by omega)]
  refine ⟨?_, ?_, ?_⟩
  · rw [handle_command_reject oracle cd1 u cmdText t2 interval command rest
      hargs hknown (by rw [hcc2])]
    rw [hcc2]
  · rw [handle_command_pass oracle cd1 u cmdText t3 interval command rest
      hargs hknown (by rw [hcc3])]
  · rw [handle_command_pass oracle cd1 u cmdText t3 interval command rest
      hargs hknown (by rw [hcc3])]
    rw [hcc3]
    simp [dget_dset_self]

theorem handle_command_cooldown_two_phase_witness :
    handle_command oracleSuccess
        (handle_command oracleSuccess [] 7 ";;add k" 0 5).2 7 ";;add k" 3 5 =
      (some ⟨CommandResponse.COOLDOWN,
          some (.text (cooldown_message "add"))⟩,
        (handle_command oracleSuccess [] 7 ";;add k" 0 5).2)
    ∧ (handle_command oracleSuccess
          (handle_command oracleSuccess [] 7 ";;add k" 0 5).2 7 ";;add k" 5
          5).1 = some (oracleSuccess "add" ["add", "k"])
    ∧ dget ((dget (handle_command oracleSuccess
        (handle_command oracleSuccess [] 7 ";;add k" 0 5).2 7 ";;add k" 5
        5).2 "add").getD []) 7 = some 5 :=
  handle_command_cooldown_two_phase oracleSuccess [] 7 ";;add k" 0 3 5 5
    "add" ["k"] (by decide) (by decide) (by decide) (by decide) (by decide)

theorem mem_removeFirst {x v : Int} : ∀ {l : List Int},
    x ∈ removeFirst l v → x ∈ l := by
  intro l
  induction l with
  | nil => intro h; simp [removeFirst] at h
  | cons a rest ih =>
      intro h
      by_cases hav : a = v
      · rw [removeFirst, if_pos hav] at h
        exact List.mem_cons_of_mem _ h
      · rw [removeFirst, if_neg hav] at h
        rcases List.mem_cons.mp h with h | h
        · exact h ▸ List.mem_cons_self _ _
        · exact List.mem_cons_of_mem _ (ih h)

theorem handle_blacklist_add_snd_cases (admins blacklist : List Int)
    (c : Int) (args : List String) (x : Int)
    (hx : x ∈ (handle_blacklist_add admins blacklist c args).2) :
    x ∈ blacklist ∨ (x ∉ admins ∧ x ∉ blacklist) := by
  by_cases h1 : c ∈ admins
  · by_cases h2 : (args.length == 2 && pyStartsWith (args.getD 1 "") "<@"
        && pyEndsWith (args.getD 1 "") ">") = true
    · rcases hpi : pyInt (pyDropRight (pyDrop (args.getD 1 "") 2) 1)
        with _ | uid
      · simp only [handle_blacklist_add, h1, h2, hpi, if_true] at hx
        exact Or.inl hx
      · by_cases h3 : uid ∈ admins
        · simp only [handle_blacklist_add, h1, h2, hpi, if_true] at hx
          simp [h3] at hx
          exact Or.inl hx
        · by_cases h4 : uid ∈ blacklist
          · simp only [handle_blacklist_add, h1, h2, hpi, if_true] at hx
            simp [h3, h4] at hx
            exact Or.inl hx
          · simp only [handle_blacklist_add, h1, h2, hpi, if_true] at hx
            simp [h3, h4] at hx
            rcases hx with h | h
            · exact Or.inl h
            · subst h
              exact Or.inr ⟨h3, h4⟩
    · simp only [handle_blacklist_add] at hx
      rw [if_pos h1, if_neg h2] at hx
      simp at hx
      exact Or.inl hx
  · simp only [handle_blacklist_add] at hx
    rw [if_neg h1] at hx
    simp at hx
    exact Or.inl hx

theorem handle_blacklist_remove_snd_cases (admins blacklist : List Int)
    (c : Int) (args : List String) (x : Int)
    (hx : x ∈ (handle_blacklist_remove admins blacklist c args).2) :
    x ∈ blacklist := by
  by_cases h1 : c ∈ admins
  · by_cases h2 : (args.length == 2 && pyStartsWith (args.getD 1 "") "<@"
        && pyEndsWith (args.getD 1 "") ">") = true
    · rcases hpi : pyInt (pyDropRight (pyDrop (args.getD 1 "") 2) 1)
        with _ | uid
      · simp only [handle_blacklist_remove, h1, h2, hpi, if_true] at hx
        simpa using hx
      · by_cases h3 : uid ∈ blacklist
        · simp only [handle_blacklist_remove, h1, h2, hpi, if_true] at hx
          simp [h3] at hx
          exact mem_removeFirst hx
        · simp only [handle_blacklist_remove, h1, h2, hpi, if_true] at hx
          simp [h3] at hx
          exact hx
    · simp only [handle_blacklist_remove] at hx
      rw [if_pos h1, if_neg h2] at hx
      simpa using hx
  · simp only [handle_blacklist_remove] at hx
    rw [if_neg h1] at hx
    simpa using hx

/-- C6: blacklist-add invoked by an admin on an admin identifier fails with
the cannot-blacklist-an-admin message and leaves the blacklist unmodified,
and both blacklist-add and blacklist-remove preserve disjointness of the
blacklist from the admin set. -/
theorem blacklist_disjoint_from_admins (admins blacklist : List Int)
    (caller uid : Int) (arg : String)
    (hcaller : caller ∈ admins)
    (hs : pyStartsWith arg "<@" = true) (he : pyEndsWith arg ">" = true)
    (hp : pyInt (pyDropRight (pyDrop arg 2) 1) = some uid)
    (hadm : uid ∈ admins)
    (hdisj : ∀ x ∈ blacklist, x ∉ admins) :
    handle_blacklist_add admins blacklist caller ["blacklist_add", arg] =
      (⟨CommandResponse.FAILURE,
        some (.text "You cannot blacklist another admin.")⟩, blacklist)
    ∧ (∀ (c : Int) (args : List String) (x : Int),
        x ∈ (handle_blacklist_add admins blacklist c args).2 → x ∉ admins)
    ∧ (∀ (c : Int) (args : List String) (x : Int),
        x ∈ (handle_blacklist_remove admins blacklist c args).2 →
          x ∉ admins) := by
  refine ⟨?_, ?_, ?_⟩
  · simp [handle_blacklist_add, hcaller, hs, he, hp, hadm]
  · intro c args x hx
    rcases handle_blacklist_add_snd_cases admins blacklist c args x hx
      with h | h
    · exact hdisj x h
    · exact h.1
  · intro c args x hx
    exact hdisj x (handle_blacklist_remove_snd_cases admins blacklist c args
      x hx)

theorem blacklist_disjoint_from_admins_witness :
    handle_blacklist_add [5, 7] [9] 7 ["blacklist_add", "<@5>"] =
      (⟨CommandResponse.FAILURE,
        some (.text "You cannot blacklist another admin.")⟩, [9])
    ∧ ((9 : Int) ∈
        (handle_blacklist_add [5, 7] [9] 3 ["blacklist_add", "<@9>"]).2 →
        (9 : Int) ∉ ([5, 7] : List Int))
    ∧ ((9 : Int) ∈
        (handle_blacklist_remove [5, 7] [9] 7
          ["blacklist_remove", "<@11>"]).2 →
        (9 : Int) ∉ ([5, 7] : List Int)) :=
  ⟨(blacklist_disjoint_from_admins [5, 7] [9] 7 5 "<@5>" (by decide)
      (by decide) (by decide) (by decide) (by decide) (by decide)).1,
   fun hx => (blacklist_disjoint_from_admins [5, 7] [9] 7 5 "<@5>" (by decide)
      (by decide) (by decide) (by decide) (by decide) (by decide)).2.1 3
      ["blacklist_add", "<@9>"] 9 hx,
   fun hx => (blacklist_disjoint_from_admins [5, 7] [9] 7 5 "<@5>" (by decide)
      (by decide) (by decide) (by decide) (by decide) (by decide)).2.2 7
      ["blacklist_remove", "<@11>"] 9 hx⟩

/-- C7: for a blacklisted author the message router short-circuits: the
outcome does not depend on `process_message` (so the dispatcher and the
handlers never run) and the state — cooldown table included — is returned
untouched. -/
theorem on_message_blacklist_shortcircuit
    (proc proc2 : InboundMessage → BotState → List Outbound × BotState)
    (m : InboundMessage) (st : BotState)
    (hb : m.authorId ∈ st.blacklist) :
    on_message proc m st = on_message proc2 m st
    ∧ (on_message proc m st).2 = st
    ∧ (on_message proc m st).2.cooldowns = st.cooldowns := by
  unfold on_message
  by_cases h : (m.authorIsSelf || m.authorIsBot) = true
  · simp [h]
  · simp [h, hb]

theorem on_message_blacklist_shortcircuit_witness :
    on_message procNothing ⟨9, false, false, ";;add k v"⟩ ⟨[], [], [9]⟩ =
      on_message procReply ⟨9, false, false, ";;add k v"⟩ ⟨[], [], [9]⟩
    ∧ (on_message procNothing ⟨9, false, false, ";;add k v"⟩
        ⟨[], [], [9]⟩).2 = ⟨[], [], [9]⟩
    ∧ (on_message procNothing ⟨9, false, false, ";;add k v"⟩
        ⟨[], [], [9]⟩).2.cooldowns = ([] : Cooldowns) :=
  on_message_blacklist_shortcircuit procNothing procReply
    ⟨9, false, false, ";;add k v"⟩ ⟨[], [], [9]⟩ (by decide)

/-- C9: a `COOLDOWN` result produces no outbound reply at all, whatever
message it carries — `send_response` replies only for a `SUCCESS` result
with a truthy payload and for the `FAILURE`, `NO_PERMISSION` and
`INVALID_ARGS` statuses. -/
theorem send_response_cooldown_silent (hasRef : Bool) (r : CommandResult)
    (hr : r.status = CommandResponse.COOLDOWN) :
    send_response hasRef r = []
    ∧ ∀ (hr2 : Bool) (r2 : CommandResult),
        send_response hr2 r2 ≠ [] →
        (r2.status = CommandResponse.SUCCESS ∧ truthy r2.message = true)
        ∨ r2.status = CommandResponse.FAILURE
        ∨ r2.status = CommandResponse.NO_PERMISSION
        ∨ r2.status = CommandResponse.INVALID_ARGS := by
  constructor
  · simp [send_response, hr]
  · intro hr2 r2 hne
    by_cases hsucc : r2.status = CommandResponse.SUCCESS
        ∧ truthy r2.message = true
    · exact Or.inl hsucc
    · by_cases hfail : r2.status = CommandResponse.FAILURE
          ∨ r2.status = CommandResponse.NO_PERMISSION
          ∨ r2.status = CommandResponse.INVALID_ARGS
      · exact Or.inr hfail
      · exact absurd (by simp [send_response, hsucc, hfail]) hne

theorem send_response_cooldown_silent_witness :
    send_response false ⟨CommandResponse.COOLDOWN,
        some (.text (cooldown_message "add"))⟩ = []
    ∧ ((send_response true ⟨CommandResponse.FAILURE, none⟩ ≠ []) →
        ((⟨CommandResponse.FAILURE, none⟩ : CommandResult).status =
            CommandResponse.SUCCESS
          ∧ truthy (⟨CommandResponse.FAILURE, none⟩ :
              CommandResult).message = true)
        ∨ (⟨CommandResponse.FAILURE, none⟩ : CommandResult).status =
            CommandResponse.FAILURE
        ∨ (⟨CommandResponse.FAILURE, none⟩ : CommandResult).status =
            CommandResponse.NO_PERMISSION
        ∨ (⟨CommandResponse.FAILURE, none⟩ : CommandResult).status =
            CommandResponse.INVALID_ARGS) :=
  ⟨(send_response_cooldown_silent false ⟨CommandResponse.COOLDOWN,
      some (.text (cooldown_message "add"))⟩ rfl).1,
   fun hne => (send_response_cooldown_silent false ⟨CommandResponse.COOLDOWN,
      some (.text (cooldown_message "add"))⟩ rfl).2 true
      ⟨CommandResponse.FAILURE, none⟩ hne⟩

/-- C10: a blacklisted, non-bot author receives exactly one reply with the
fixed blacklist text when the stripped message starts with the trigger
marker, and nothing at all otherwise; in both cases the state is unchanged
and no further processing happens. -/
theorem on_message_blacklisted_reply
    (proc : InboundMessage → BotState → List Outbound × BotState)
    (m : InboundMessage) (st : BotState)
    (hself : m.authorIsSelf = false) (hbot : m.authorIsBot = false)
    (hb : m.authorId ∈ st.blacklist) :
    (pyStartsWith (pyStrip m.content) ";;" = true →
      on_message proc m st =
        ([Outbound.replyToMessage (.text BLACKLISTED_REPLY)], st))
    ∧ (pyStartsWith (pyStrip m.content) ";;" = false →
      on_message proc m st = ([], st)) := by
  constructor <;> intro h <;> simp [on_message, hself, hbot, hb, h]

theorem on_message_blacklisted_reply_witness :
    on_message procReply ⟨9, false, false, " ;;add k v"⟩ ⟨[], [], [9]⟩ =
      ([Outbound.replyToMessage (.text BLACKLISTED_REPLY)], ⟨[], [], [9]⟩)
    ∧ on_message procReply ⟨9, false, false, "hello"⟩ ⟨[], [], [9]⟩ =
      ([], ⟨[], [], [9]⟩) :=
  ⟨(on_message_blacklisted_reply procReply ⟨9, false, false, " ;;add k v"⟩
      ⟨[], [], [9]⟩ rfl rfl (by decide)).1 (by decide),
   (on_message_blacklisted_reply procReply ⟨9, false, false, "hello"⟩
      ⟨[], [], [9]⟩ rfl rfl (by decide)).2 (by decide)⟩
